import Mathlib

/-!
Shallow embedding of the risk scoring engine in `app/core/risk_engine.py`
(repository `openweatherchallengeBE`), together with proofs of the spec
claims about it.

Conventions:
* Python floats are modelled as exact rationals (`ℚ`); Python ints as `ℤ`.
* `None`-able values are `Option`s.
* `math.sqrt` appears only inside the low-humidity correction of the heat
  index.  It is modelled as an explicit oracle argument `sq : ℚ → ℚ`; every
  theorem below is proved for an arbitrary oracle, hence in particular for
  the true square root (which is never evaluated by any claim).
* Python `round` on floats is round-half-to-even; it is modelled exactly by
  `roundHalfEven` below.
-/

namespace RiskEngine

/-- Data model: `RiskScore` from `app/models/schemas.py` (level string plus
integer score). -/
structure RiskScore where
  level : String
  score : ℤ
deriving DecidableEq

/-- Data model: `Profile` from `app/models/schemas.py`. -/
structure Profile where
  age : Option ℤ
  conditions : List String
deriving DecidableEq

/-- Data model: `Scores` from `app/models/schemas.py`. -/
structure Scores where
  asthma_risk : RiskScore
  heat_risk : RiskScore
  dehydration_risk : RiskScore
  overall_risk : RiskScore
deriving DecidableEq

/-- Data model: `RawWeather` from `app/models/schemas.py`. -/
structure RawWeather where
  temperature_c : ℚ
  humidity : ℚ
  heat_index_c : ℚ
deriving DecidableEq

/-- Data model: `RawAirQuality` from `app/models/schemas.py`. -/
structure RawAirQuality where
  aqi : ℤ
  pm25 : Option ℚ
  pm10 : Option ℚ
  o3 : Option ℚ
deriving DecidableEq

/-- Data model: `FactorContribution` from `app/models/schemas.py`. -/
structure FactorContribution where
  factor : String
  percentage : ℚ
deriving DecidableEq

/-- Data model: `ContributingFactors` from `app/models/schemas.py`. -/
structure ContributingFactors where
  asthma : List FactorContribution
  heat : List FactorContribution
  dehydration : List FactorContribution
deriving DecidableEq

/-- Python `round` on a float: round to the nearest integer, ties going to
the even integer (round-half-to-even). -/
def roundHalfEven (q : ℚ) : ℤ :=
  if q - ⌊q⌋ < 1/2 then ⌊q⌋
  else if 1/2 < q - ⌊q⌋ then ⌊q⌋ + 1
  else if ⌊q⌋ % 2 = 0 then ⌊q⌋ else ⌊q⌋ + 1

/-- Python `round(x, 1)`: round to one decimal place, half to even. -/
def round1 (q : ℚ) : ℚ := ((roundHalfEven (q * 10) : ℤ) : ℚ) / 10

/-- The clamp `max(1, min(int(s), 4))` used by the dehydration and overall
scorers (`risk_engine.py`, lines 120 and 140). -/
def clampScore (s : ℤ) : ℤ := max 1 (min s 4)

/-- `level_from_score` (`risk_engine.py`, lines 80-88). -/
def level_from_score (score : ℤ) : String :=
  if score ≤ 1 then "Low"
  else if score = 2 then "Moderate"
  else if score = 3 then "High"
  else "Very High"

/-- Celsius to Fahrenheit, `temp_c * 9 / 5 + 32` (`risk_engine.py`, line 15). -/
def toF (c : ℚ) : ℚ := c * 9 / 5 + 32

/-- Fahrenheit back to Celsius, `(hi_f - 32) * 5 / 9` (`risk_engine.py`, line 42). -/
def fromF (f : ℚ) : ℚ := (f - 32) * 5 / 9

/-- The Rothfusz regression polynomial (`risk_engine.py`, lines 23-33). -/
def rothfusz (T R : ℚ) : ℚ :=
  -42.379
  + 2.04901523 * T
  + 10.14333127 * R
  - 0.22475541 * T * R
  - 0.00683783 * T * T
  - 0.05481717 * R * R
  + 0.00122874 * T * T * R
  + 0.00085282 * T * R * R
  - 0.00000199 * T * T * R * R

/-- Argument of `math.sqrt` in the low-humidity correction
(`risk_engine.py`, line 37). -/
def sqrtArg (T : ℚ) : ℚ := (17 - |T - 95|) / 17

/-- The low-humidity correction `((13 - R) / 4) * math.sqrt((17 - abs(T - 95)) / 17)`
(`risk_engine.py`, line 37), with the square root as oracle `sq`. -/
def lowCorrection (sq : ℚ → ℚ) (T R : ℚ) : ℚ := ((13 - R) / 4) * sq (sqrtArg T)

/-- The high-humidity correction `((R - 85) / 10) * ((87 - T) / 5)`
(`risk_engine.py`, line 39). -/
def highCorrection (T R : ℚ) : ℚ := ((R - 85) / 10) * ((87 - T) / 5)

/-- Heat index in Fahrenheit: the branch structure of
`compute_heat_index_c` before the final conversion back to Celsius
(`risk_engine.py`, lines 19-39).  The corrections live inside the else
branch and are mutually exclusive (`if` / `elif`). -/
def hiRaw (sq : ℚ → ℚ) (T R : ℚ) : ℚ :=
  if T < 80 then T
  else if R < 13 ∧ 80 ≤ T ∧ T ≤ 112 then rothfusz T R - lowCorrection sq T R
  else if 85 < R ∧ 80 ≤ T ∧ T ≤ 87 then rothfusz T R + highCorrection T R
  else rothfusz T R

/-- `compute_heat_index_c` (`risk_engine.py`, lines 8-42), with `math.sqrt`
as oracle `sq`. -/
def compute_heat_index_c (sq : ℚ → ℚ) (temp_c humidity : ℚ) : ℚ :=
  fromF (hiRaw sq (toF temp_c) humidity)

/-- Base AQI table `{1: 0, 2: 1, 3: 2, 4: 4, 5: 5}` with default 0
(`risk_engine.py`, lines 50-51). -/
def airBase (aqi : ℤ) : ℤ :=
  if aqi = 1 then 0
  else if aqi = 2 then 1
  else if aqi = 3 then 2
  else if aqi = 4 then 4
  else if aqi = 5 then 5
  else 0

/-- `score_air_pollution` (`risk_engine.py`, lines 45-58). -/
def score_air_pollution (aqi : ℤ) (pm25 o3 : Option ℚ) : ℤ :=
  let score := airBase aqi
  let score :=
    match pm25 with
    | some p => if 35 < p then min 5 (score + 1) else score
    | none => score
  match o3 with
  | some z => if 100 < z then min 5 (score + 1) else score
  | none => score

/-- `score_heat` (`risk_engine.py`, lines 61-77). -/
def score_heat (heat_index_c : ℚ) : ℤ :=
  let hi_f := toF heat_index_c
  if hi_f < 80 then 0
  else if hi_f < 90 then 2
  else if hi_f < 103 then 3
  else if hi_f < 125 then 4
  else 5

/-- Score part of `compute_dehydration_risk` (`risk_engine.py`, lines
102-120): sequential threshold raises, then the humidity bump, then the
age bump, each bump checked against the evolving score, then the clamp. -/
def dehydration_score (humidity heat_index_c : ℚ) (age : Option ℤ) : ℤ :=
  let s : ℤ := 1
  let s := if 27 ≤ heat_index_c then 2 else s
  let s := if 32 ≤ heat_index_c then 3 else s
  let s := if 38 ≤ heat_index_c then 4 else s
  let s := if 70 ≤ humidity ∧ s < 4 then s + 1 else s
  let s :=
    match age with
    | some a => if 65 ≤ a ∧ s < 4 then s + 1 else s
    | none => s
  clampScore s

/-- `compute_dehydration_risk` (`risk_engine.py`, lines 91-121).  The
`temperature_c` parameter is accepted but unused, as in the source. -/
def compute_dehydration_risk (temperature_c humidity heat_index_c : ℚ)
    (age : Option ℤ) : RiskScore :=
  let s := dehydration_score humidity heat_index_c age
  ⟨level_from_score s, s⟩

/-- `compute_overall_risk` (`risk_engine.py`, lines 124-141). -/
def compute_overall_risk (asthma_score heat_score dehydration_score : ℤ) :
    RiskScore :=
  let weighted : ℚ :=
    (asthma_score : ℚ) * 0.3 + (heat_score : ℚ) * 0.35 +
      (dehydration_score : ℚ) * 0.35
  let avg_score := clampScore (roundHalfEven weighted)
  ⟨level_from_score avg_score, avg_score⟩

/-- Python `c.lower()` on a condition label, as a character list. -/
def lowerStr (s : String) : List Char := s.toList.map Char.toLower

/-- Python `" ".join(ls)` on character lists. -/
def joinSp : List (List Char) → List Char
  | [] => []
  | [c] => c
  | c :: d :: rest => c ++ ' ' :: joinSp (d :: rest)

/-- Boolean test that `pat` is an initial segment of `s`. -/
def isPrefixB : List Char → List Char → Bool
  | [], _ => true
  | _ :: _, [] => false
  | a :: as, b :: bs => a == b && isPrefixB as bs

/-- Python substring containment `pat in s`, on character lists. -/
def containsB (pat : List Char) : List Char → Bool
  | [] => isPrefixB pat []
  | b :: bs => isPrefixB pat (b :: bs) || containsB pat bs

/-- Proposition that `k` occurs contiguously inside `s`. -/
def SubStr (k s : List Char) : Prop := ∃ u v, u ++ k ++ v = s

/-- Respiratory keyword list (`risk_engine.py`, line 171). -/
def resp_keywords : List String := ["asthma", "copd", "bronchitis", "respiratory"]

/-- Cardiovascular keyword list (`risk_engine.py`, line 172). -/
def cardio_keywords : List String := ["heart", "cardio", "hypertension", "cardiovascular"]

/-- Python `any(k in " ".join(lower) for k in kws)` where `lower` is the
lowercased condition list (`risk_engine.py`, lines 170-173). -/
def mentionsKeyword (kws : List String) (conditions : List String) : Bool :=
  kws.any fun k => containsB k.toList (joinSp (conditions.map lowerStr))

/-- The `at_risk` flag computed in `combine_scores`
(`risk_engine.py`, lines 162-174). -/
def at_risk_flag (profile : Option Profile) : Bool :=
  match profile with
  | none => false
  | some p =>
    (match p.age with
     | some a => decide (65 ≤ a)
     | none => false) ||
    mentionsKeyword (resp_keywords ++ cardio_keywords) p.conditions

/-- The age forwarded by `combine_scores` to the dehydration scorer
(`risk_engine.py`, lines 163-166). -/
def profileAge (profile : Option Profile) : Option ℤ :=
  match profile with
  | some p => p.age
  | none => none

/-- `combine_scores` (`risk_engine.py`, lines 144-208). -/
def combine_scores (air_score heat_score : ℤ)
    (temperature_c humidity heat_index_c : ℚ)
    (profile : Option Profile) : Scores :=
  let at_risk := at_risk_flag profile
  let asthma_score := if at_risk then min 5 (air_score + 1) else air_score
  let heat_score_final := if at_risk then min 5 (heat_score + 1) else heat_score
  let asthma_risk : RiskScore := ⟨level_from_score asthma_score, asthma_score⟩
  let heat_risk : RiskScore := ⟨level_from_score heat_score_final, heat_score_final⟩
  let dehydration_risk :=
    compute_dehydration_risk temperature_c humidity heat_index_c (profileAge profile)
  let overall_risk :=
    compute_overall_risk asthma_risk.score heat_risk.score dehydration_risk.score
  ⟨asthma_risk, heat_risk, dehydration_risk, overall_risk⟩

/-- `_clamp01` (`risk_engine.py`, lines 210-211). -/
def clamp01 (x : ℚ) : ℚ := max 0 (min 1 x)

/-- Python `total or 1.0`: the divisor guard of `build_contributing_factors`
(`risk_engine.py`, lines 242, 268, 289). -/
def totalOr1 (x : ℚ) : ℚ := if x = 0 then 1 else x

/-- One factor percentage, `round(signal / total * 100, 1)`
(`risk_engine.py`, lines 244-249 and analogues). -/
def pct (signal total : ℚ) : ℚ := round1 (signal / total * 100)

/-- PM2.5 signal `_clamp01((raw_air.pm25 or 0.0) / 60.0)`
(`risk_engine.py`, lines 227, 230). -/
def s_pm25 (raw_air : RawAirQuality) : ℚ := clamp01 (raw_air.pm25.getD 0 / 60)

/-- Ozone signal `_clamp01((raw_air.o3 or 0.0) / 150.0)`
(`risk_engine.py`, lines 228, 231). -/
def s_o3 (raw_air : RawAirQuality) : ℚ := clamp01 (raw_air.o3.getD 0 / 150)

/-- Respiratory-condition test of `build_contributing_factors`
(`risk_engine.py`, lines 235-238). -/
def hasRespCond (p : Profile) : Bool :=
  resp_keywords.any fun k => containsB k.toList (joinSp (p.conditions.map lowerStr))

/-- Cardio-condition test of `build_contributing_factors`
(`risk_engine.py`, lines 261-264). -/
def hasCardioCond (p : Profile) : Bool :=
  cardio_keywords.any fun k => containsB k.toList (joinSp (p.conditions.map lowerStr))

/-- Python truthiness condition `profile.age and profile.age >= 65`
(`risk_engine.py`, lines 239, 265): an age of 0 is falsy in the source, so
it is excluded explicitly. -/
def ageTruthy65 (p : Profile) : Bool :=
  match p.age with
  | some a => decide (a ≠ 0 ∧ 65 ≤ a)
  | none => false

/-- Asthma-dimension profile signal (`risk_engine.py`, lines 233-240). -/
def profile_asthma (profile : Option Profile) : ℚ :=
  match profile with
  | none => 0.2
  | some p => if hasRespCond p || ageTruthy65 p then 1 else 0.2

/-- Heat-dimension profile signal (`risk_engine.py`, lines 259-266). -/
def profile_heat (profile : Option Profile) : ℚ :=
  match profile with
  | none => 0.2
  | some p => if hasCardioCond p || ageTruthy65 p then 1 else 0.2

/-- Heat-index signal `_clamp01((hi - 27.0) / (40.0 - 27.0))` of the heat
dimension (`risk_engine.py`, line 256). -/
def s_hi (raw_weather : RawWeather) : ℚ :=
  clamp01 ((raw_weather.heat_index_c - 27) / (40 - 27))

/-- Humidity signal `_clamp01((humidity - 40.0) / 50.0)` of the heat
dimension (`risk_engine.py`, line 257). -/
def s_hum (raw_weather : RawWeather) : ℚ :=
  clamp01 ((raw_weather.humidity - 40) / 50)

/-- Age used by the dehydration dimension,
`profile.age if profile and profile.age is not None else 30`
(`risk_engine.py`, line 284). -/
def dehydrationAge (profile : Option Profile) : ℤ :=
  match profile with
  | some p => p.age.getD 30
  | none => 30

/-- Heat-index signal of the dehydration dimension
(`risk_engine.py`, line 285), identical in form to `s_hi`. -/
def s_hi_d (raw_weather : RawWeather) : ℚ :=
  clamp01 ((raw_weather.heat_index_c - 27) / (40 - 27))

/-- Humidity signal `_clamp01((humidity - 50.0) / 40.0)` of the
dehydration dimension (`risk_engine.py`, line 286). -/
def s_hum_d (raw_weather : RawWeather) : ℚ :=
  clamp01 ((raw_weather.humidity - 50) / 40)

/-- Age signal `_clamp01((age - 40) / 30.0)` of the dehydration dimension
(`risk_engine.py`, line 287). -/
def s_age (profile : Option Profile) : ℚ :=
  clamp01 (((dehydrationAge profile : ℚ) - 40) / 30)

/-- `build_contributing_factors` (`risk_engine.py`, lines 214-304).  The
`scores` parameter is accepted but unused, as in the source. -/
def build_contributing_factors (raw_weather : RawWeather)
    (raw_air : RawAirQuality) (profile : Option Profile)
    (scores : Scores) : ContributingFactors :=
  let total_a := totalOr1 (s_pm25 raw_air + s_o3 raw_air + profile_asthma profile)
  let asthma_factors : List FactorContribution :=
    [⟨"PM2.5", pct (s_pm25 raw_air) total_a⟩,
     ⟨"Ozone (O3)", pct (s_o3 raw_air) total_a⟩,
     ⟨"Profile (asthma/age)", pct (profile_asthma profile) total_a⟩]
  let total_h := totalOr1 (s_hi raw_weather + s_hum raw_weather + profile_heat profile)
  let heat_factors : List FactorContribution :=
    [⟨"Heat Index", pct (s_hi raw_weather) total_h⟩,
     ⟨"Humidity", pct (s_hum raw_weather) total_h⟩,
     ⟨"Profile (age/heart/resp.)", pct (profile_heat profile) total_h⟩]
  let total_d := totalOr1 (s_hi_d raw_weather + s_hum_d raw_weather + s_age profile)
  let dehydration_factors : List FactorContribution :=
    [⟨"Heat Index", pct (s_hi_d raw_weather) total_d⟩,
     ⟨"Humidity", pct (s_hum_d raw_weather) total_d⟩,
     ⟨"Age (65+)", pct (s_age profile) total_d⟩]
  ⟨asthma_factors, heat_factors, dehydration_factors⟩

/-- Dehydration score as the spec phrases it: the highest applicable
heat-index threshold wins, then the humidity bump, then the age bump, each
checked against the evolving score, then the clamp to `[1, 4]`. -/
def dehydrationSpecScore (humidity heat_index_c : ℚ) (age : Option ℤ) : ℤ :=
  let base : ℤ :=
    if 38 ≤ heat_index_c then 4
    else if 32 ≤ heat_index_c then 3
    else if 27 ≤ heat_index_c then 2
    else 1
  let s1 := if 70 ≤ humidity ∧ base < 4 then base + 1 else base
  let s2 :=
    match age with
    | some a => if 65 ≤ a ∧ s1 < 4 then s1 + 1 else s1
    | none => s1
  max 1 (min s2 4)

/-- PM2.5 bump of the air scorer, as an additive indicator. -/
def pmBump (pm25 : Option ℚ) : ℤ :=
  match pm25 with
  | some p => if 35 < p then 1 else 0
  | none => 0

/-- Ozone bump of the air scorer, as an additive indicator. -/
def o3Bump (o3 : Option ℚ) : ℤ :=
  match o3 with
  | some z => if 100 < z then 1 else 0
  | none => 0

lemma clampScore_ge_one (s : ℤ) : 1 ≤ clampScore s := le_max_left 1 _

lemma clampScore_le_four (s : ℤ) : clampScore s ≤ 4 :=
  max_le (by norm_num) (min_le_right _ _)

lemma airBase_bounds (aqi : ℤ) : 0 ≤ airBase aqi ∧ airBase aqi ≤ 5 := by
  unfold airBase
  split_ifs <;> omega

/-- C1.  The overall risk score is the clamp to `[1, 4]` of the
round-half-to-even of the weighted average `0.30·asthma + 0.35·heat +
0.35·dehydration`, its level is derived from that score, and the inputs
`(2, 3, 3)` give weighted value 2.7, hence score 3 and level "High". -/
theorem c1_overall_weighted_round_clamp (a h d : ℤ) :
    (compute_overall_risk a h d).score
        = clampScore (roundHalfEven (0.30 * (a : ℚ) + 0.35 * (h : ℚ) + 0.35 * (d : ℚ)))
    ∧ (compute_overall_risk a h d).level
        = level_from_score ((compute_overall_risk a h d).score)
    ∧ compute_overall_risk 2 3 3 = ⟨"High", 3⟩ := by
  refine ⟨?_, rfl, ?_⟩
  · show clampScore (roundHalfEven ((a : ℚ) * 0.3 + (h : ℚ) * 0.35 + (d : ℚ) * 0.35)) = _
    have hw : (a : ℚ) * 0.3 + (h : ℚ) * 0.35 + (d : ℚ) * 0.35
        = 0.30 * (a : ℚ) + 0.35 * (h : ℚ) + 0.35 * (d : ℚ) := by ring
    rw [hw]
  · norm_num [compute_overall_risk, roundHalfEven, clampScore, level_from_score]

/-- C2.  The dehydration score equals the spec description (highest
heat-index threshold wins, then the humidity bump, then the age bump,
sequentially against the evolving score, then the clamp), it always lies in
`[1, 4]`, and temp 35, humidity 75, heat index 33, age 70 give score 4 and
level "Very High". -/
theorem c2_dehydration_spec (t hum hi : ℚ) (age : Option ℤ) :
    (compute_dehydration_risk t hum hi age).score = dehydrationSpecScore hum hi age
    ∧ 1 ≤ (compute_dehydration_risk t hum hi age).score
    ∧ (compute_dehydration_risk t hum hi age).score ≤ 4
    ∧ compute_dehydration_risk 35 75 33 (some 70) = ⟨"Very High", 4⟩ := by
  refine ⟨?_, clampScore_ge_one _, clampScore_le_four _, ?_⟩
  · show dehydration_score hum hi age = dehydrationSpecScore hum hi age
    cases age <;>
      simp only [dehydration_score, dehydrationSpecScore, clampScore] <;>
      split_ifs <;> first | rfl | omega | linarith
  · norm_num [compute_dehydration_risk, dehydration_score, clampScore, level_from_score]

/-- C3.  The air pollution score is the base table value `{1↦0, 2↦1, 3↦2,
4↦4, 5↦5}` (0 for any other AQI) plus the PM2.5 bump (pm25 present and
above 35) plus the ozone bump (o3 present and above 100), capped at 5; AQI 1
gives 0, AQI 3 gives 2, and AQI 5 with pm25 50 and o3 150 gives the capped
result 5. -/
theorem c3_air_pollution_spec (aqi : ℤ) (pm25 o3 : Option ℚ) :
    score_air_pollution aqi pm25 o3 = min 5 (airBase aqi + pmBump pm25 + o3Bump o3)
    ∧ score_air_pollution 1 none none = 0
    ∧ score_air_pollution 3 none none = 2
    ∧ score_air_pollution 5 (some 50) (some 150) = 5 := by
  refine ⟨?_, by norm_num [score_air_pollution, airBase],
    by norm_num [score_air_pollution, airBase],
    by norm_num [score_air_pollution, airBase]⟩
  have hb := airBase_bounds aqi
  cases pm25 <;> cases o3 <;>
    simp only [score_air_pollution, pmBump, o3Bump] <;>
    (try split_ifs) <;> omega

/-- C6.  Every `RiskScore` produced by the engine carries
`level = level_from_score score`, and `level_from_score` is total on the
integers: at most 1 maps to "Low", 2 to "Moderate", 3 to "High", and 4 or
more (however large) to "Very High". -/
theorem c6_level_score_invariant :
    (∀ air heat t hum hi prof,
      ((combine_scores air heat t hum hi prof).asthma_risk.level
          = level_from_score ((combine_scores air heat t hum hi prof).asthma_risk.score))
      ∧ ((combine_scores air heat t hum hi prof).heat_risk.level
          = level_from_score ((combine_scores air heat t hum hi prof).heat_risk.score))
      ∧ ((combine_scores air heat t hum hi prof).dehydration_risk.level
          = level_from_score ((combine_scores air heat t hum hi prof).dehydration_risk.score))
      ∧ ((combine_scores air heat t hum hi prof).overall_risk.level
          = level_from_score ((combine_scores air heat t hum hi prof).overall_risk.score)))
    ∧ (∀ t hum hi age,
      (compute_dehydration_risk t hum hi age).level
          = level_from_score ((compute_dehydration_risk t hum hi age).score))
    ∧ (∀ a h d,
      (compute_overall_risk a h d).level
          = level_from_score ((compute_overall_risk a h d).score))
    ∧ ∀ s : ℤ,
      (s ≤ 1 → level_from_score s = "Low")
      ∧ (s = 2 → level_from_score s = "Moderate")
      ∧ (s = 3 → level_from_score s = "High")
      ∧ (4 ≤ s → level_from_score s = "Very High") := by
  refine ⟨fun air heat t hum hi prof => ⟨rfl, rfl, rfl, rfl⟩,
    fun t hum hi age => rfl, fun a h d => rfl, fun s => ⟨?_, ?_, ?_, ?_⟩⟩ <;>
    intro hs <;> unfold level_from_score <;> split_ifs <;> first | rfl | omega

/-- Heat index as the spec phrases it: below 80 °F the heat index equals
the input air temperature; otherwise the Rothfusz regression, minus the
low-humidity correction when `R < 13` and `80 ≤ T ≤ 112`, plus the
high-humidity correction when `R > 85` and `80 ≤ T ≤ 87`, converted back to
Celsius. -/
def heatIndexSpec (sq : ℚ → ℚ) (temp_c humidity : ℚ) : ℚ :=
  if toF temp_c < 80 then temp_c
  else
    fromF (rothfusz (toF temp_c) humidity
      - (if humidity < 13 ∧ 80 ≤ toF temp_c ∧ toF temp_c ≤ 112 then
          lowCorrection sq (toF temp_c) humidity else 0)
      + (if 85 < humidity ∧ 80 ≤ toF temp_c ∧ toF temp_c ≤ 87 then
          highCorrection (toF temp_c) humidity else 0))

/-- Coefficient of `R` in the Rothfusz regression, as a function of `T`. -/
def humCoeff1 (T : ℚ) : ℚ := 10.14333127 - 0.22475541 * T + 0.00122874 * T * T

/-- Coefficient of `R²` in the Rothfusz regression, as a function of `T`. -/
def humCoeff2 (T : ℚ) : ℚ := -0.05481717 + 0.00085282 * T - 0.00000199 * T * T

lemma humCoeff_combo_26 (T : ℚ) : 0 ≤ humCoeff1 T + 26 * humCoeff2 T := by
  unfold humCoeff1 humCoeff2
  nlinarith [sq_nonneg (235400 * T - 20258209)]

lemma humCoeff_combo_170 (T : ℚ) (hT : 80 ≤ T) :
    0 ≤ humCoeff1 T + 170 * humCoeff2 T := by
  unfold humCoeff1 humCoeff2
  nlinarith [sq_nonneg (T - 80), hT]

lemma humSlope_nonneg (T S : ℚ) (hT : 80 ≤ T) (hS1 : 26 ≤ S) (hS2 : S ≤ 170) :
    0 ≤ humCoeff1 T + humCoeff2 T * S := by
  have h1 := humCoeff_combo_26 T
  have h2 := humCoeff_combo_170 T hT
  nlinarith [mul_nonneg (sub_nonneg.2 hS2) h1, mul_nonneg (sub_nonneg.2 hS1) h2]

lemma rothfusz_mono (T R1 R2 : ℚ) (hT : 80 ≤ T) (h1 : 13 ≤ R1)
    (h12 : R1 ≤ R2) (h2 : R2 ≤ 85) : rothfusz T R1 ≤ rothfusz T R2 := by
  have hs := humSlope_nonneg T (R1 + R2) hT (by linarith) (by linarith)
  have key : 0 ≤ (R2 - R1) * (humCoeff1 T + humCoeff2 T * (R1 + R2)) :=
    mul_nonneg (by linarith) hs
  have expand : rothfusz T R2 - rothfusz T R1
      = (R2 - R1) * (humCoeff1 T + humCoeff2 T * (R1 + R2)) := by
    unfold rothfusz humCoeff1 humCoeff2; ring
  linarith [key, expand]

/-- C4.  The computed heat index matches the spec description exactly: the
Fahrenheit shortcut below 80 °F returns the input air temperature, and
otherwise the Rothfusz regression with the two humidity corrections applied
under their stated guards is converted back to Celsius.  Proved for every
square-root oracle, in particular for the true square root. -/
theorem c4_heat_index_matches_spec (sq : ℚ → ℚ) (temp_c humidity : ℚ) :
    compute_heat_index_c sq temp_c humidity = heatIndexSpec sq temp_c humidity := by
  unfold compute_heat_index_c heatIndexSpec hiRaw
  by_cases hT : toF temp_c < 80
  · rw [if_pos hT, if_pos hT]
    unfold fromF toF
    ring
  · rw [if_neg hT, if_neg hT]
    by_cases hlow : humidity < 13 ∧ 80 ≤ toF temp_c ∧ toF temp_c ≤ 112
    · have hnothigh : ¬(85 < humidity ∧ 80 ≤ toF temp_c ∧ toF temp_c ≤ 87) := by
        rintro ⟨hgt, -⟩
        linarith [hlow.1]
      rw [if_pos hlow, if_pos hlow, if_neg hnothigh]
      ring_nf
    · rw [if_neg hlow, if_neg hlow]
      by_cases hhigh : 85 < humidity ∧ 80 ≤ toF temp_c ∧ toF temp_c ≤ 87
      · rw [if_pos hhigh, if_pos hhigh]
        ring_nf
      · rw [if_neg hhigh, if_neg hhigh]
        ring_nf

/-- C8.  Under the guard of the low-humidity correction the argument passed
to the square root is non-negative, so the engine cannot raise there; with
exact arithmetic every value produced is a plain rational, hence finite. -/
theorem c8_sqrt_arg_nonneg (temp_c humidity : ℚ) (h13 : humidity < 13)
    (h80 : 80 ≤ toF temp_c) (h112 : toF temp_c ≤ 112) :
    0 ≤ sqrtArg (toF temp_c) := by
  unfold sqrtArg
  have habs : |toF temp_c - 95| ≤ 17 := abs_le.2 ⟨by linarith, by linarith⟩
  exact div_nonneg (by linarith) (by norm_num)

/-- Witness for C8 at 90 °F (temp 290/9 °C) and humidity 10 %. -/
theorem c8_sqrt_arg_nonneg_witness :
    (10 : ℚ) < 13 ∧ (80 : ℚ) ≤ toF (290/9) ∧ toF (290/9) ≤ 112
    ∧ 0 ≤ sqrtArg (toF (290/9)) :=
  ⟨by norm_num, by norm_num [toF], by norm_num [toF],
   c8_sqrt_arg_nonneg (290/9) 10 (by norm_num) (by norm_num [toF])
     (by norm_num [toF])⟩

/-- C9.  For a fixed temperature at or above 80 °F and humidities
`13 ≤ R1 ≤ R2 ≤ 85` (outside both correction bands) the heat index is
monotonically non-decreasing in humidity.  Proved for every square-root
oracle: the corrections are not taken in this band. -/
theorem c9_monotone_in_humidity (sq : ℚ → ℚ) (temp_c R1 R2 : ℚ)
    (hT : 80 ≤ toF temp_c) (h1 : 13 ≤ R1) (h12 : R1 ≤ R2) (h2 : R2 ≤ 85) :
    compute_heat_index_c sq temp_c R1 ≤ compute_heat_index_c sq temp_c R2 := by
  have hT' : ¬(toF temp_c < 80) := not_lt.2 hT
  have e1 : hiRaw sq (toF temp_c) R1 = rothfusz (toF temp_c) R1 := by
    unfold hiRaw
    rw [if_neg hT', if_neg (by rintro ⟨hlt, -⟩; linarith),
      if_neg (by rintro ⟨hgt, -⟩; linarith)]
  have e2 : hiRaw sq (toF temp_c) R2 = rothfusz (toF temp_c) R2 := by
    unfold hiRaw
    rw [if_neg hT', if_neg (by rintro ⟨hlt, -⟩; linarith),
      if_neg (by rintro ⟨hgt, -⟩; linarith)]
  unfold compute_heat_index_c
  rw [e1, e2]
  have hmono := rothfusz_mono (toF temp_c) R1 R2 hT h1 h12 h2
  unfold fromF
  linarith

/-- Witness for C9 at temperature 29 °C (84.2 °F), humidities 40 and 50. -/
theorem c9_monotone_in_humidity_witness :
    (80 : ℚ) ≤ toF 29 ∧ (13 : ℚ) ≤ 40 ∧ (40 : ℚ) ≤ 50 ∧ (50 : ℚ) ≤ 85
    ∧ compute_heat_index_c (fun _ => 0) 29 40 ≤ compute_heat_index_c (fun _ => 0) 29 50 :=
  ⟨by norm_num [toF], by norm_num, by norm_num, by norm_num,
   c9_monotone_in_humidity (fun _ => 0) 29 40 50 (by norm_num [toF])
     (by norm_num) (by norm_num) (by norm_num)⟩

lemma isPrefixB_iff (k s : List Char) : isPrefixB k s = true ↔ ∃ v, k ++ v = s := by
  induction k generalizing s with
  | nil => simp [isPrefixB]
  | cons a as ih =>
    cases s with
    | nil => simp [isPrefixB]
    | cons b bs =>
      simp only [isPrefixB, Bool.and_eq_true, beq_iff_eq, ih, List.cons_append,
        List.cons.injEq]
      constructor
      · rintro ⟨rfl, v, rfl⟩
        exact ⟨v, rfl, rfl⟩
      · rintro ⟨v, rfl, rfl⟩
        exact ⟨rfl, v, rfl⟩

lemma substr_nil_iff (k : List Char) : SubStr k [] ↔ k = [] := by
  constructor
  · rintro ⟨u, v, h⟩
    rcases List.append_eq_nil.1 h with ⟨h1, h2⟩
    exact (List.append_eq_nil.1 h1).2
  · rintro rfl
    exact ⟨[], [], rfl⟩

lemma containsB_iff (k s : List Char) : containsB k s = true ↔ SubStr k s := by
  induction s with
  | nil =>
    show isPrefixB k [] = true ↔ _
    rw [isPrefixB_iff, substr_nil_iff]
    simp
  | cons b bs ih =>
    simp only [containsB, Bool.or_eq_true, isPrefixB_iff, ih]
    constructor
    · rintro (⟨v, h⟩ | ⟨u, v, h⟩)
      · exact ⟨[], v, by simp [h]⟩
      · exact ⟨b :: u, v, by simp [h]⟩
    · rintro ⟨u, v, h⟩
      cases u with
      | nil => exact Or.inl ⟨v, by simpa using h⟩
      | cons c u2 =>
        simp only [List.cons_append] at h
        injection h with h1 h2
        exact Or.inr ⟨u2, v, h2⟩

lemma substr_appendL (k s w : List Char) (h : SubStr k s) : SubStr k (w ++ s) := by
  obtain ⟨u, v, rfl⟩ := h
  exact ⟨w ++ u, v, by simp⟩

lemma substr_appendR (k s w : List Char) (h : SubStr k s) : SubStr k (s ++ w) := by
  obtain ⟨u, v, rfl⟩ := h
  exact ⟨u, v ++ w, by simp⟩

lemma prefix_cut : ∀ (k t u v : List Char) (a : Char), a ∉ k →
    k ++ t = u ++ a :: v → ∃ t2, k ++ t2 = u := by
  intro k
  induction k with
  | nil =>
    intro t u v a _ _
    exact ⟨u, rfl⟩
  | cons c k2 ih =>
    intro t u v a hk h
    cases u with
    | nil =>
      simp only [List.nil_append, List.cons_append] at h
      injection h with h1 h2
      subst h1
      exact absurd (List.mem_cons_self _ _) hk
    | cons b u2 =>
      simp only [List.cons_append] at h
      injection h with h1 h2
      subst h1
      have hk2 : a ∉ k2 := fun hm => hk (List.mem_cons_of_mem _ hm)
      obtain ⟨t2, ht2⟩ := ih t u2 v a hk2 h2
      exact ⟨t2, by simp [List.cons_append, ht2]⟩

lemma substr_split (k : List Char) (a : Char) (hk : a ∉ k) :
    ∀ u v : List Char, SubStr k (u ++ a :: v) → SubStr k u ∨ SubStr k v := by
  intro u
  induction u with
  | nil =>
    intro v h
    obtain ⟨s, t, hst⟩ := h
    cases s with
    | nil =>
      cases k with
      | nil => exact Or.inl ⟨[], [], rfl⟩
      | cons c k2 =>
        simp only [List.nil_append, List.cons_append] at hst
        injection hst with h1 h2
        subst h1
        exact absurd (List.mem_cons_self _ _) hk
    | cons c s2 =>
      simp only [List.nil_append, List.cons_append] at hst
      injection hst with h1 h2
      exact Or.inr ⟨s2, t, h2⟩
  | cons b u2 ih =>
    intro v h
    obtain ⟨s, t, hst⟩ := h
    cases s with
    | nil =>
      cases k with
      | nil => exact Or.inl ⟨[], b :: u2, rfl⟩
      | cons c k2 =>
        simp only [List.nil_append, List.cons_append] at hst
        injection hst with h1 h2
        subst h1
        have hk2 : a ∉ k2 := fun hm => hk (List.mem_cons_of_mem _ hm)
        obtain ⟨t2, ht2⟩ := prefix_cut k2 t u2 v a hk2 h2
        exact Or.inl ⟨[], t2, by simp [List.cons_append, ht2]⟩
    | cons c s2 =>
      simp only [List.cons_append] at hst
      injection hst with h1 h2
      rcases ih v ⟨s2, t, h2⟩ with hl | hr
      · exact Or.inl (substr_appendL k u2 [b] hl)
      · exact Or.inr hr

lemma substr_joinSp (k : List Char) (hsp : ' ' ∉ k) (hne : k ≠ []) :
    ∀ ls : List (List Char), SubStr k (joinSp ls) ↔ ∃ c ∈ ls, SubStr k c := by
  intro ls
  induction ls with
  | nil => simp [joinSp, substr_nil_iff, hne]
  | cons c rest ih =>
    cases rest with
    | nil => simp [joinSp]
    | cons d rest2 =>
      constructor
      · intro h
        rcases substr_split k ' ' hsp c (joinSp (d :: rest2)) h with h1 | h2
        · exact ⟨c, List.mem_cons_self _ _, h1⟩
        · obtain ⟨e, he, hs⟩ := ih.1 h2
          exact ⟨e, List.mem_cons_of_mem _ he, hs⟩
      · rintro ⟨e, he, hs⟩
        rcases List.mem_cons.1 he with rfl | he2
        · exact substr_appendR k e (' ' :: joinSp (d :: rest2)) hs
        · have h3 := substr_appendL k (joinSp (d :: rest2)) (c ++ [' '])
            (ih.2 ⟨e, he2, hs⟩)
          show SubStr k (c ++ ' ' :: joinSp (d :: rest2))
          simpa [List.append_assoc] using h3

lemma mentionsKeyword_iff (kws conditions : List String)
    (hkw : ∀ k ∈ kws, ' ' ∉ k.toList ∧ k.toList ≠ []) :
    mentionsKeyword kws conditions = true
      ↔ ∃ c ∈ conditions, ∃ k ∈ kws, SubStr k.toList (lowerStr c) := by
  unfold mentionsKeyword
  rw [List.any_eq_true]
  constructor
  · rintro ⟨k, hkmem, hcb⟩
    obtain ⟨hsp, hne⟩ := hkw k hkmem
    obtain ⟨c2, hc2, hs⟩ := (substr_joinSp k.toList hsp hne
      (conditions.map lowerStr)).1 ((containsB_iff _ _).1 hcb)
    obtain ⟨c, hcmem, rfl⟩ := List.mem_map.1 hc2
    exact ⟨c, hcmem, k, hkmem, hs⟩
  · rintro ⟨c, hcmem, k, hkmem, hs⟩
    obtain ⟨hsp, hne⟩ := hkw k hkmem
    refine ⟨k, hkmem, ?_⟩
    rw [containsB_iff]
    exact (substr_joinSp k.toList hsp hne (conditions.map lowerStr)).2
      ⟨lowerStr c, List.mem_map_of_mem _ hcmem, hs⟩

lemma ageFlag_iff (p : Profile) :
    (match p.age with
     | some a => decide (65 ≤ a)
     | none => false) = true ↔ ∃ a, p.age = some a ∧ 65 ≤ a := by
  cases hpa : p.age with
  | none => simp
  | some a => simp

/-- The at-risk condition as the spec phrases it: the profile is present
and either its age is at least 65 or some condition label
case-insensitively contains one of the respiratory or cardiovascular
keywords. -/
def atRiskSpec (profile : Option Profile) : Prop :=
  ∃ p, profile = some p ∧
    ((∃ a, p.age = some a ∧ 65 ≤ a)
      ∨ ∃ c ∈ p.conditions, ∃ k ∈ resp_keywords ++ cardio_keywords,
          SubStr k.toList (lowerStr c))

/-- C5.  `combine_scores` flags `at_risk` exactly when the profile has age
at least 65 or a condition containing a respiratory or cardiovascular
keyword; when flagged, the asthma score becomes `min 5 (air + 1)` and the
heat score `min 5 (heat + 1)` before level classification, while the
dehydration score gets no at-risk adjustment and the overall score is
affected only through the three component scores. -/
theorem c5_profile_sensitivity (air heat : ℤ) (t hum hi : ℚ)
    (prof : Option Profile) :
    (at_risk_flag prof = true ↔ atRiskSpec prof)
    ∧ (combine_scores air heat t hum hi prof).asthma_risk.score
        = (if at_risk_flag prof then min 5 (air + 1) else air)
    ∧ (combine_scores air heat t hum hi prof).heat_risk.score
        = (if at_risk_flag prof then min 5 (heat + 1) else heat)
    ∧ (combine_scores air heat t hum hi prof).dehydration_risk
        = compute_dehydration_risk t hum hi (profileAge prof)
    ∧ (combine_scores air heat t hum hi prof).overall_risk
        = compute_overall_risk
            ((combine_scores air heat t hum hi prof).asthma_risk.score)
            ((combine_scores air heat t hum hi prof).heat_risk.score)
            ((combine_scores air heat t hum hi prof).dehydration_risk.score) := by
  refine ⟨?_, rfl, rfl, rfl, rfl⟩
  cases prof with
  | none => simp [at_risk_flag, atRiskSpec]
  | some p =>
    have hkw : ∀ k ∈ resp_keywords ++ cardio_keywords,
        ' ' ∉ k.toList ∧ k.toList ≠ [] := by decide
    simp only [at_risk_flag, Bool.or_eq_true, ageFlag_iff,
      mentionsKeyword_iff _ _ hkw, atRiskSpec]
    constructor
    · rintro (h | h)
      · exact ⟨p, rfl, Or.inl h⟩
      · exact ⟨p, rfl, Or.inr h⟩
    · rintro ⟨q, hq, h⟩
      obtain rfl : p = q := Option.some.inj hq
      tauto

lemma roundHalfEven_err (q : ℚ) : |((roundHalfEven q : ℤ) : ℚ) - q| ≤ 1/2 := by
  have h1 : ((⌊q⌋ : ℤ) : ℚ) ≤ q := Int.floor_le q
  have h2 : q < (⌊q⌋ : ℚ) + 1 := Int.lt_floor_add_one q
  unfold roundHalfEven
  split_ifs <;> rw [abs_le] <;> constructor <;> push_cast <;> linarith

lemma clamp01_nonneg (x : ℚ) : 0 ≤ clamp01 x := le_max_left 0 _

lemma profile_asthma_ge (prof : Option Profile) : 1/5 ≤ profile_asthma prof := by
  cases prof with
  | none => norm_num [profile_asthma]
  | some p =>
    simp only [profile_asthma]
    split_ifs <;> norm_num

lemma profile_heat_ge (prof : Option Profile) : 1/5 ≤ profile_heat prof := by
  cases prof with
  | none => norm_num [profile_heat]
  | some p =>
    simp only [profile_heat]
    split_ifs <;> norm_num

lemma pct3_sum_bound (x y z : ℚ) (hx : 0 ≤ x) (hy : 0 ≤ y) (hz : 0 ≤ z)
    (hsum : x + y + z ≠ 0) :
    |pct x (x + y + z) + pct y (x + y + z) + pct z (x + y + z) - 100| ≤ 1/10 := by
  set t := x + y + z with ht
  have htpos : 0 < t := by
    rcases lt_or_eq_of_le (by positivity : (0:ℚ) ≤ t) with h | h
    · exact h
    · exact absurd h.symm hsum
  have hq : x / t * 100 * 10 + y / t * 100 * 10 + z / t * 100 * 10 = 1000 := by
    field_simp
    ring
  have e1 := roundHalfEven_err (x / t * 100 * 10)
  have e2 := roundHalfEven_err (y / t * 100 * 10)
  have e3 := roundHalfEven_err (z / t * 100 * 10)
  obtain ⟨l1, r1⟩ := abs_le.1 e1
  obtain ⟨l2, r2⟩ := abs_le.1 e2
  obtain ⟨l3, r3⟩ := abs_le.1 e3
  set n1 := roundHalfEven (x / t * 100 * 10) with hn1
  set n2 := roundHalfEven (y / t * 100 * 10) with hn2
  set n3 := roundHalfEven (z / t * 100 * 10) with hn3
  have hm_hi : ((n1 + n2 + n3 : ℤ) : ℚ) < 1002 := by push_cast; linarith
  have hm_lo : (998 : ℚ) < ((n1 + n2 + n3 : ℤ) : ℚ) := by push_cast; linarith
  have hZhi : n1 + n2 + n3 < 1002 := by exact_mod_cast hm_hi
  have hZlo : (998 : ℤ) < n1 + n2 + n3 := by exact_mod_cast hm_lo
  have hQhi : ((n1 : ℚ) + n2 + n3) ≤ 1001 := by
    have h : n1 + n2 + n3 ≤ 1001 := by omega
    exact_mod_cast h
  have hQlo : (999 : ℚ) ≤ ((n1 : ℚ) + n2 + n3) := by
    have h : (999 : ℤ) ≤ n1 + n2 + n3 := by omega
    exact_mod_cast h
  have p1 : pct x t = (n1 : ℚ) / 10 := rfl
  have p2 : pct y t = (n2 : ℚ) / 10 := rfl
  have p3 : pct z t = (n3 : ℚ) / 10 := rfl
  rw [p1, p2, p3, abs_le]
  constructor <;> linarith

lemma pct_zero_of_zero : pct 0 (totalOr1 (0 + 0 + 0)) = 0 := by
  norm_num [pct, totalOr1, round1, roundHalfEven]

lemma dim_all (x y z : ℚ) (hx : 0 ≤ x) (hy : 0 ≤ y) (hz : 0 ≤ z)
    (a b c : String) :
    (¬(x = 0 ∧ y = 0 ∧ z = 0) →
      |(([⟨a, pct x (totalOr1 (x + y + z))⟩,
          ⟨b, pct y (totalOr1 (x + y + z))⟩,
          ⟨c, pct z (totalOr1 (x + y + z))⟩] : List FactorContribution).map
            fun f => f.percentage).sum - 100| ≤ 1/10)
    ∧ ((x = 0 ∧ y = 0 ∧ z = 0) →
      ∀ f ∈ ([⟨a, pct x (totalOr1 (x + y + z))⟩,
          ⟨b, pct y (totalOr1 (x + y + z))⟩,
          ⟨c, pct z (totalOr1 (x + y + z))⟩] : List FactorContribution),
        f.percentage = 0) := by
  constructor
  · intro hne
    have hsum : x + y + z ≠ 0 := by
      intro h0
      exact hne ⟨by linarith, by linarith, by linarith⟩
    have ht : totalOr1 (x + y + z) = x + y + z := if_neg hsum
    rw [ht]
    have hb := pct3_sum_bound x y z hx hy hz hsum
    simp only [List.map_cons, List.map_nil, List.sum_cons, List.sum_nil, add_zero]
    have heq : pct x (x + y + z) + (pct y (x + y + z) + pct z (x + y + z)) - 100
        = pct x (x + y + z) + pct y (x + y + z) + pct z (x + y + z) - 100 := by ring
    rw [heq]
    exact hb
  · rintro ⟨hx0, hy0, hz0⟩ f hf
    subst hx0
    subst hy0
    subst hz0
    simp only [List.mem_cons, List.not_mem_nil, or_false] at hf
    rcases hf with rfl | rfl | rfl <;> exact pct_zero_of_zero

/-- C7.  For each factor dimension, if at least one of its signal strengths
is nonzero the returned percentages sum to 100 within 0.1; if every signal
of a dimension is exactly zero, the divisor falls back to 1 and every
percentage of that dimension is 0. -/
theorem c7_factor_percentages (w : RawWeather) (ra : RawAirQuality)
    (prof : Option Profile) (sc : Scores) :
    (¬(s_pm25 ra = 0 ∧ s_o3 ra = 0 ∧ profile_asthma prof = 0) →
      |((build_contributing_factors w ra prof sc).asthma.map
          fun f => f.percentage).sum - 100| ≤ 1/10)
    ∧ ((s_pm25 ra = 0 ∧ s_o3 ra = 0 ∧ profile_asthma prof = 0) →
      ∀ f ∈ (build_contributing_factors w ra prof sc).asthma, f.percentage = 0)
    ∧ (¬(s_hi w = 0 ∧ s_hum w = 0 ∧ profile_heat prof = 0) →
      |((build_contributing_factors w ra prof sc).heat.map
          fun f => f.percentage).sum - 100| ≤ 1/10)
    ∧ ((s_hi w = 0 ∧ s_hum w = 0 ∧ profile_heat prof = 0) →
      ∀ f ∈ (build_contributing_factors w ra prof sc).heat, f.percentage = 0)
    ∧ (¬(s_hi_d w = 0 ∧ s_hum_d w = 0 ∧ s_age prof = 0) →
      |((build_contributing_factors w ra prof sc).dehydration.map
          fun f => f.percentage).sum - 100| ≤ 1/10)
    ∧ ((s_hi_d w = 0 ∧ s_hum_d w = 0 ∧ s_age prof = 0) →
      ∀ f ∈ (build_contributing_factors w ra prof sc).dehydration,
        f.percentage = 0) := by
  have hpa : (0 : ℚ) ≤ profile_asthma prof :=
    le_trans (by norm_num) (profile_asthma_ge prof)
  have hph : (0 : ℚ) ≤ profile_heat prof :=
    le_trans (by norm_num) (profile_heat_ge prof)
  have ha := dim_all (s_pm25 ra) (s_o3 ra) (profile_asthma prof)
    (clamp01_nonneg _) (clamp01_nonneg _) hpa
    "PM2.5" "Ozone (O3)" "Profile (asthma/age)"
  have hh := dim_all (s_hi w) (s_hum w) (profile_heat prof)
    (clamp01_nonneg _) (clamp01_nonneg _) hph
    "Heat Index" "Humidity" "Profile (age/heart/resp.)"
  have hd := dim_all (s_hi_d w) (s_hum_d w) (s_age prof)
    (clamp01_nonneg _) (clamp01_nonneg _) (clamp01_nonneg _)
    "Heat Index" "Humidity" "Age (65+)"
  simp only [build_contributing_factors]
  exact ⟨ha.1, ha.2, hh.1, hh.2, hd.1, hd.2⟩

/-- Witness for C7 on the dehydration dimension at heat index 30 °C,
humidity 60 %, no profile. -/
theorem c7_factor_percentages_witness :
    ¬(s_hi_d ⟨30, 60, 30⟩ = 0 ∧ s_hum_d ⟨30, 60, 30⟩ = 0 ∧ s_age none = 0)
    ∧ |((build_contributing_factors ⟨30, 60, 30⟩ ⟨1, none, none, none⟩ none
          ⟨⟨"Low", 0⟩, ⟨"Low", 0⟩, ⟨"Low", 0⟩, ⟨"Low", 0⟩⟩).dehydration.map
        fun f => f.percentage).sum - 100| ≤ 1/10 :=
  ⟨by norm_num [s_hi_d, clamp01, min_def, max_def],
   (c7_factor_percentages ⟨30, 60, 30⟩ ⟨1, none, none, none⟩ none
      ⟨⟨"Low", 0⟩, ⟨"Low", 0⟩, ⟨"Low", 0⟩, ⟨"Low", 0⟩⟩).2.2.2.2.1
     (by norm_num [s_hi_d, clamp01, min_def, max_def])⟩

/-- C10.  The asthma and heat profile signals are at least 0.2, so the
signal sums of those two dimensions are strictly positive and the zero-sum
fallback divisor is never used for them; a dehydration dimension whose
signals are all exactly zero exists (heat index 20 °C, humidity 40 %, no
profile) and yields the all-zero percentage output. -/
theorem c10_profile_signal_baseline (prof : Option Profile)
    (ra : RawAirQuality) (w : RawWeather) :
    1/5 ≤ profile_asthma prof
    ∧ 1/5 ≤ profile_heat prof
    ∧ totalOr1 (s_pm25 ra + s_o3 ra + profile_asthma prof)
        = s_pm25 ra + s_o3 ra + profile_asthma prof
    ∧ totalOr1 (s_hi w + s_hum w + profile_heat prof)
        = s_hi w + s_hum w + profile_heat prof
    ∧ (s_hi_d ⟨20, 40, 20⟩ = 0 ∧ s_hum_d ⟨20, 40, 20⟩ = 0 ∧ s_age none = 0)
    ∧ (build_contributing_factors ⟨20, 40, 20⟩ ⟨1, none, none, none⟩ none
        ⟨⟨"Low", 0⟩, ⟨"Low", 0⟩, ⟨"Low", 0⟩, ⟨"Low", 0⟩⟩).dehydration
        = [⟨"Heat Index", 0⟩, ⟨"Humidity", 0⟩, ⟨"Age (65+)", 0⟩] := by
  refine ⟨profile_asthma_ge prof, profile_heat_ge prof, ?_, ?_, ?_, ?_⟩
  · refine if_neg ?_
    intro h0
    have h1 := clamp01_nonneg (ra.pm25.getD 0 / 60)
    have h2 := clamp01_nonneg (ra.o3.getD 0 / 150)
    have h3 := profile_asthma_ge prof
    unfold s_pm25 s_o3 at h0
    linarith
  · refine if_neg ?_
    intro h0
    have h1 := clamp01_nonneg ((w.heat_index_c - 27) / (40 - 27))
    have h2 := clamp01_nonneg ((w.humidity - 40) / 50)
    have h3 := profile_heat_ge prof
    unfold s_hi s_hum at h0
    linarith
  · norm_num [s_hi_d, s_hum_d, s_age, dehydrationAge, clamp01, min_def, max_def]
  · simp only [build_contributing_factors]
    norm_num [s_hi_d, s_hum_d, s_age, dehydrationAge, clamp01, totalOr1, pct,
      round1, roundHalfEven, min_def, max_def]

/-- Witness for C6 at concrete scores 0, 2, 3 and 100. -/
theorem c6_level_score_invariant_witness :
    level_from_score 0 = "Low" ∧ level_from_score 2 = "Moderate"
    ∧ level_from_score 3 = "High" ∧ level_from_score 100 = "Very High" :=
  ⟨(c6_level_score_invariant.2.2.2 0).1 (by decide),
   (c6_level_score_invariant.2.2.2 2).2.1 rfl,
   (c6_level_score_invariant.2.2.2 3).2.2.1 rfl,
   (c6_level_score_invariant.2.2.2 100).2.2.2 (by decide)⟩

end RiskEngine
